import Mathlib

/-!
Verification of the Policy component of the shield repository.

The visible source (src/unnamed/part_000, package policy) declares the
Policy entity, the Filters type, and the Repository / AuthzRepository
interfaces; the interface implementations and the Policy Service are not
part of the visible source, so they are modelled from the spec, with the
declared Go types embedded faithfully.  The CLI commands
(src/cmd/namespace.go) are embedded directly from their source.
-/

set_option linter.unusedVariables false

namespace Shield

/-- Policy entity, from src/unnamed/part_000: ID, RoleID, NamespaceID,
ActionID are Go strings; CreatedAt/UpdatedAt (time.Time) are modelled as
a Nat-valued logical clock. -/
structure Policy where
  ID : String
  RoleID : String
  NamespaceID : String
  ActionID : String
  CreatedAt : Nat
  UpdatedAt : Nat
deriving DecidableEq, Repr

/-- Filters, from src/unnamed/part_000: a query-time projection holding a
NamespaceID; the empty string means no namespace filter. -/
structure Filters where
  NamespaceID : String
deriving DecidableEq, Repr

/-- Error taxonomy of the spec (§7): ValidationError names the offending
field, SyncError carries the already-assigned Policy ID. -/
inductive PolicyError where
  | NotFound
  | ValidationError (field : String)
  | StoreError
  | SyncError (id : String)
deriving DecidableEq, Repr

/-- Semantic key of a Policy: the (RoleID, NamespaceID, ActionID) triple. -/
def Policy.triple (p : Policy) : String × String × String :=
  (p.RoleID, p.NamespaceID, p.ActionID)

/-- Predicate used by the idempotent create: does row q carry the same
semantic-key triple as pol? -/
def tripleMatch (pol q : Policy) : Bool :=
  q.RoleID == pol.RoleID && q.NamespaceID == pol.NamespaceID && q.ActionID == pol.ActionID

/-- State of the canonical Policy Store behind the Repository interface of
src/unnamed/part_000: the stored rows, a counter from which fresh IDs are
minted, and a logical clock from which timestamps are stamped. -/
structure Repository where
  rows : List Policy
  nextID : Nat
  clock : Nat
deriving DecidableEq, Repr

/-- Modelled from the spec: Repository.Get (the implementation behind the
interface in src/unnamed/part_000 is not in the visible source).  Fails
with NotFound if no policy has that ID. -/
def Repository.Get (s : Repository) (id : String) : Except PolicyError Policy :=
  match s.rows.find? (fun p => p.ID == id) with
  | some p => Except.ok p
  | none => Except.error PolicyError.NotFound

/-- Modelled from the spec: Repository.List with Filters.  The visible
interface declares List without a filters argument; the spec (§3, §4.2)
describes filtered listing via the Filters type declared in the source:
the empty filter returns the full set, a non-empty NamespaceID restricts
to policies of that namespace. -/
def Repository.List (s : Repository) (f : Filters) : List Policy :=
  if f.NamespaceID = "" then s.rows
  else s.rows.filter (fun p => p.NamespaceID == f.NamespaceID)

/-- Fresh row persisted by Repository.Create: a newly minted ID, the
input triple, and CreatedAt/UpdatedAt stamped from the store clock. -/
def newRow (s : Repository) (pol : Policy) : Policy :=
  { ID := toString s.nextID, RoleID := pol.RoleID, NamespaceID := pol.NamespaceID,
    ActionID := pol.ActionID, CreatedAt := s.clock + 1, UpdatedAt := s.clock + 1 }

/-- Modelled from the spec: Repository.Create.  If a policy with the same
(RoleID, NamespaceID, ActionID) triple already exists, returns the
existing ID without creating a new row; otherwise persists a new row,
stamping CreatedAt/UpdatedAt, and returns the new ID. -/
def Repository.Create (s : Repository) (pol : Policy) : Repository × String :=
  match s.rows.find? (tripleMatch pol) with
  | some q => (s, q.ID)
  | none =>
    ({ rows := s.rows ++ [newRow s pol], nextID := s.nextID + 1, clock := s.clock + 1 },
     toString s.nextID)

/-- Row transformation applied by Repository.Update: the row whose ID
matches gets the new triple and a refreshed UpdatedAt; other rows are
unchanged. -/
def updRow (pol : Policy) (now : Nat) (q : Policy) : Policy :=
  if q.ID == pol.ID then
    { q with RoleID := pol.RoleID, NamespaceID := pol.NamespaceID,
             ActionID := pol.ActionID, UpdatedAt := now }
  else q

/-- Modelled from the spec: Repository.Update.  Requires pol.ID to
reference an existing row; replaces RoleID/NamespaceID/ActionID and
refreshes UpdatedAt; fails with NotFound (leaving the store unchanged) if
the ID does not exist. -/
def Repository.Update (s : Repository) (pol : Policy) :
    Repository × Except PolicyError String :=
  if s.rows.any (fun q => q.ID == pol.ID) then
    let now := s.clock + 1
    ({ rows := s.rows.map (updRow pol now), nextID := s.nextID, clock := now },
     Except.ok pol.ID)
  else
    (s, Except.error PolicyError.NotFound)

/-- Well-formedness of a store state: IDs are pairwise distinct, semantic
triples are pairwise distinct (the create-uniqueness invariant of §4.2),
timestamps do not run ahead of the clock, and the next minted ID is fresh. -/
def Repository.WF (s : Repository) : Prop :=
  s.rows.Pairwise (fun p q => p.ID ≠ q.ID) ∧
  s.rows.Pairwise (fun p q => p.triple ≠ q.triple) ∧
  (∀ p ∈ s.rows, p.UpdatedAt ≤ s.clock) ∧
  (∀ p ∈ s.rows, p.ID ≠ toString s.nextID)

/-- Relation tuple of the external authorization store (§4.3): the
conceptual shape (namespace, action) granted-by role. -/
structure RelationTuple where
  namespaceID : String
  actionID : String
  roleID : String
deriving DecidableEq, Repr

/-- Projection of a Policy into its relation tuple (§4.3). -/
def Policy.toTuple (p : Policy) : RelationTuple :=
  { namespaceID := p.NamespaceID, actionID := p.ActionID, roleID := p.RoleID }

/-- Idempotent write of one tuple into the external store: adding an
already-present tuple is a no-op, otherwise the tuple is appended. -/
def applyTuple (ext : List RelationTuple) (t : RelationTuple) : List RelationTuple :=
  if t ∈ ext then ext else ext ++ [t]

/-- Modelled from the spec: the tuple-application loop of the Sync
Adapter, with an externally injected failure oracle standing for the
external store rejecting a tuple write.  Tuples are applied in order; on
the first failing tuple the loop stops, tuples already applied remain
applied (no compensating rollback), and the unapplied entries starting
with the failing one are returned so the caller can retry only those.  An
empty second component means full success. -/
def addTuples (fail : RelationTuple → Bool) (ext : List RelationTuple) :
    List RelationTuple → List RelationTuple × List RelationTuple
  | [] => (ext, [])
  | t :: ts =>
    if fail t then (ext, t :: ts)
    else addTuples fail (applyTuple ext t) ts

/-- Modelled from the spec: AuthzRepository.Add (the implementation behind
the interface in src/unnamed/part_000 is not in the visible source).
Projects each Policy of the batch into a relation tuple and writes the
tuples idempotently; the second component lists the entries that failed
(empty on success). -/
def AuthzRepository.Add (fail : RelationTuple → Bool) (ext : List RelationTuple)
    (policies : List Policy) : List RelationTuple × List RelationTuple :=
  addTuples fail ext (policies.map Policy.toTuple)

/-- Modelled from the spec: identifier validation of §4.1 — an identifier
is well-formed when it is non-empty and built from alphanumeric
characters, hyphens and underscores. -/
def isValidIdentifier (s : String) : Bool :=
  !s.data.isEmpty && s.data.all (fun c => c.isAlphanum || c == '-' || c == '_')

/-- Modelled from the spec: validation of the raw (role, namespace,
action) input, returning the name of the first offending field, or none
when all three identifiers are well-formed. -/
def validateTriple (role ns act : String) : Option String :=
  if !isValidIdentifier role then some "role_id"
  else if !isValidIdentifier ns then some "namespace_id"
  else if !isValidIdentifier act then some "action_id"
  else none

/-- Policy value the service hands to Repository.Create: no ID, the raw
triple, timestamps left for the store to stamp. -/
def inputPolicy (role ns act : String) : Policy :=
  { ID := "", RoleID := role, NamespaceID := ns, ActionID := act,
    CreatedAt := 0, UpdatedAt := 0 }

/-- Policy value the service hands to Repository.Update: the target ID
and the new triple, timestamps left for the store to refresh. -/
def updateInput (id role ns act : String) : Policy :=
  { ID := id, RoleID := role, NamespaceID := ns, ActionID := act,
    CreatedAt := 0, UpdatedAt := 0 }

/-- Combined state seen by the Policy Service: the canonical store and
the external tuple store. -/
structure ServiceState where
  store : Repository
  ext : List RelationTuple
deriving DecidableEq, Repr

/-- Outcome of a mutating service call. -/
inductive ServiceResult where
  | ok (id : String)
  | err (e : PolicyError)
deriving DecidableEq, Repr

/-- Modelled from the spec: Service.Create (§4.4) — validate, persist to
the Policy Store, then sync the persisted Policy to the external store.
A sync failure surfaces as SyncError carrying the assigned ID, without
rolling back the store write. -/
def Service.Create (fail : RelationTuple → Bool) (st : ServiceState)
    (role ns act : String) : ServiceState × ServiceResult :=
  match validateTriple role ns act with
  | some f => (st, ServiceResult.err (PolicyError.ValidationError f))
  | none =>
    let res := st.store.Create (inputPolicy role ns act)
    match res.1.Get res.2 with
    | Except.error _ =>
      ({ store := res.1, ext := st.ext }, ServiceResult.err PolicyError.StoreError)
    | Except.ok persisted =>
      let sync := AuthzRepository.Add fail st.ext [persisted]
      if sync.2.isEmpty then
        ({ store := res.1, ext := sync.1 }, ServiceResult.ok res.2)
      else
        ({ store := res.1, ext := sync.1 },
         ServiceResult.err (PolicyError.SyncError res.2))

/-- Modelled from the spec: Service.Update (§4.4) — validate, update the
row in the Policy Store, then sync the updated Policy.  A sync failure
surfaces as SyncError carrying the policy ID, without rolling back the
store write. -/
def Service.Update (fail : RelationTuple → Bool) (st : ServiceState)
    (id role ns act : String) : ServiceState × ServiceResult :=
  match validateTriple role ns act with
  | some f => (st, ServiceResult.err (PolicyError.ValidationError f))
  | none =>
    let res := st.store.Update (updateInput id role ns act)
    match res.2 with
    | Except.error e => (st, ServiceResult.err e)
    | Except.ok id2 =>
      match res.1.Get id2 with
      | Except.error _ =>
        ({ store := res.1, ext := st.ext }, ServiceResult.err PolicyError.StoreError)
      | Except.ok persisted =>
        let sync := AuthzRepository.Add fail st.ext [persisted]
        if sync.2.isEmpty then
          ({ store := res.1, ext := sync.1 }, ServiceResult.ok id2)
        else
          ({ store := res.1, ext := sync.1 },
           ServiceResult.err (PolicyError.SyncError id2))

/-- Modelled from the spec: Service.Get passes through to the Policy
Store unchanged (§4.4). -/
def Service.Get (st : ServiceState) (id : String) : Except PolicyError Policy :=
  st.store.Get id

/-- Modelled from the spec: Service.List passes through to the Policy
Store unchanged (§4.4). -/
def Service.List (st : ServiceState) (f : Filters) : List Policy :=
  st.store.List f

/-! CLI commands, embedded from src/cmd/namespace.go.  Each RunE closure
is embedded as a function over an environment recording the outcome of
each effectful step (file.Parse, ValidateAll, createClient, the RPC); a
trace records whether a client was created and a request sent. -/

/-- Request body of NamespaceRequestBody (proto), opaque to the command. -/
structure NamespaceRequestBody where
  name : String
deriving DecidableEq, Repr

/-- Request body of OrganizationRequestBody (proto), opaque to the command. -/
structure OrganizationRequestBody where
  name : String
  slug : String
deriving DecidableEq, Repr

/-- Namespace entity fields the CLI reads back from responses. -/
structure NamespaceData where
  id : String
  name : String
deriving DecidableEq, Repr

/-- Organization entity fields the CLI reads back from responses. -/
structure OrganizationData where
  id : String
  name : String
  slug : String
deriving DecidableEq, Repr

/-- Effect trace of one CLI command run: whether createClient was invoked
and whether an RPC request was sent to the server. -/
structure CmdTrace where
  clientCreated : Bool
  requestSent : Bool
deriving DecidableEq, Repr

/-- Environment of the namespace create/edit commands: outcomes of
file.Parse on the body file, reqBody.ValidateAll, createClient, and the
server RPCs. -/
structure NamespaceCmdEnv where
  parseFile : Except String NamespaceRequestBody
  validateAll : NamespaceRequestBody → Option String
  createClient : Except String Unit
  createNamespaceRpc : NamespaceRequestBody → Except String NamespaceData
  updateNamespaceRpc : String → NamespaceRequestBody → Except String NamespaceData

/-- Environment of the organization create/edit/list commands. -/
structure OrganizationCmdEnv where
  parseFile : Except String OrganizationRequestBody
  validateAll : OrganizationRequestBody → Option String
  createClient : Except String Unit
  createOrganizationRpc : OrganizationRequestBody → Except String OrganizationData
  updateOrganizationRpc : String → OrganizationRequestBody → Except String Unit

/-- RunE of createNamespaceCommand (src/cmd/namespace.go lines 57-87):
parse the body file, validate it, create the client, send
CreateNamespace, print the success line. -/
def createNamespaceCommand (env : NamespaceCmdEnv) : Except String String × CmdTrace :=
  match env.parseFile with
  | Except.error e => (Except.error e, { clientCreated := false, requestSent := false })
  | Except.ok reqBody =>
    match env.validateAll reqBody with
    | some e => (Except.error e, { clientCreated := false, requestSent := false })
    | none =>
      match env.createClient with
      | Except.error e => (Except.error e, { clientCreated := true, requestSent := false })
      | Except.ok _ =>
        match env.createNamespaceRpc reqBody with
        | Except.error e => (Except.error e, { clientCreated := true, requestSent := true })
        | Except.ok ns =>
          (Except.ok ("successfully created namespace " ++ ns.name ++ " with id " ++ ns.id),
           { clientCreated := true, requestSent := true })

/-- RunE of editNamespaceCommand (src/cmd/namespace.go lines 109-141):
parse, validate, create client, send UpdateNamespace with the ID
argument, print the success line. -/
def editNamespaceCommand (env : NamespaceCmdEnv) (namespaceID : String) :
    Except String String × CmdTrace :=
  match env.parseFile with
  | Except.error e => (Except.error e, { clientCreated := false, requestSent := false })
  | Except.ok reqBody =>
    match env.validateAll reqBody with
    | some e => (Except.error e, { clientCreated := false, requestSent := false })
    | none =>
      match env.createClient with
      | Except.error e => (Except.error e, { clientCreated := true, requestSent := false })
      | Except.ok _ =>
        match env.updateNamespaceRpc namespaceID reqBody with
        | Except.error e => (Except.error e, { clientCreated := true, requestSent := true })
        | Except.ok ns =>
          (Except.ok ("successfully edited namespace with id " ++ namespaceID ++
              " to id " ++ ns.id ++ " and name " ++ ns.name),
           { clientCreated := true, requestSent := true })

/-- RunE of createOrganizationCommand (src/cmd/namespace.go lines
312-343): parse, validate, create client, send CreateOrganization with
the header context, print the success line. -/
def createOrganizationCommand (env : OrganizationCmdEnv) : Except String String × CmdTrace :=
  match env.parseFile with
  | Except.error e => (Except.error e, { clientCreated := false, requestSent := false })
  | Except.ok reqBody =>
    match env.validateAll reqBody with
    | some e => (Except.error e, { clientCreated := false, requestSent := false })
    | none =>
      match env.createClient with
      | Except.error e => (Except.error e, { clientCreated := true, requestSent := false })
      | Except.ok _ =>
        match env.createOrganizationRpc reqBody with
        | Except.error e => (Except.error e, { clientCreated := true, requestSent := true })
        | Except.ok org =>
          (Except.ok ("successfully created organization " ++ org.name ++ " with id " ++ org.id),
           { clientCreated := true, requestSent := true })

/-- RunE of editOrganizationCommand (src/cmd/namespace.go lines 367-399):
parse, validate, create client, send UpdateOrganization with the ID
argument, print the success line. -/
def editOrganizationCommand (env : OrganizationCmdEnv) (organizationID : String) :
    Except String String × CmdTrace :=
  match env.parseFile with
  | Except.error e => (Except.error e, { clientCreated := false, requestSent := false })
  | Except.ok reqBody =>
    match env.validateAll reqBody with
    | some e => (Except.error e, { clientCreated := false, requestSent := false })
    | none =>
      match env.createClient with
      | Except.error e => (Except.error e, { clientCreated := true, requestSent := false })
      | Except.ok _ =>
        match env.updateOrganizationRpc organizationID reqBody with
        | Except.error e => (Except.error e, { clientCreated := true, requestSent := true })
        | Except.ok _ =>
          (Except.ok ("successfully edited organization with id " ++ organizationID),
           { clientCreated := true, requestSent := true })

/-- One unit of CLI output: a printed text line or a rendered table. -/
inductive OutLine where
  | text (s : String)
  | table (rows : List (List String))
deriving DecidableEq, Repr

/-- Table row rendered for one organization by the list command:
ID, NAME, SLUG. -/
def orgRow (o : OrganizationData) : List String :=
  [o.id, o.name, o.slug]

/-- RunE of listOrganizationCommand (src/cmd/namespace.go lines 490-528):
create client, send ListOrganizations; if the result is empty print
"No organizations found." and return nil; otherwise print the count line
and a table of header plus one row per organization, in order. -/
def listOrganizationCommand (createClient : Except String Unit)
    (listRpc : Except String (List OrganizationData)) :
    Except String Unit × List OutLine :=
  match createClient with
  | Except.error e => (Except.error e, [])
  | Except.ok _ =>
    match listRpc with
    | Except.error e => (Except.error e, [])
    | Except.ok organizations =>
      if organizations.length == 0 then
        (Except.ok (), [OutLine.text "No organizations found."])
      else
        (Except.ok (),
         [OutLine.text ("Showing " ++ toString organizations.length ++ " organizations"),
          OutLine.table ([["ID", "NAME", "SLUG"]] ++ organizations.map orgRow)])

/-- Sample empty store state used to instantiate theorems. -/
def sampleRepo : Repository :=
  { rows := [], nextID := 0, clock := 0 }

/-- Sample policy input used to instantiate theorems. -/
def samplePolicy : Policy :=
  { ID := "", RoleID := "r1", NamespaceID := "ns1", ActionID := "view",
    CreatedAt := 0, UpdatedAt := 0 }

/-- Sample stored row used to instantiate theorems. -/
def sampleRow : Policy :=
  { ID := "0", RoleID := "r1", NamespaceID := "ns1", ActionID := "view",
    CreatedAt := 1, UpdatedAt := 1 }

/-- Sample one-row store state used to instantiate theorems. -/
def sampleRepo1 : Repository :=
  { rows := [sampleRow], nextID := 1, clock := 1 }

/-- Sample policy whose ID is absent from the sample stores. -/
def sampleMissing : Policy :=
  { ID := "zz", RoleID := "r2", NamespaceID := "ns1", ActionID := "edit",
    CreatedAt := 0, UpdatedAt := 0 }

/-- Sample update input targeting the sample row's ID with a new triple. -/
def sampleUpdate : Policy :=
  { ID := "0", RoleID := "r2", NamespaceID := "ns2", ActionID := "edit",
    CreatedAt := 0, UpdatedAt := 0 }

/-- Sample service state over the one-row store with an empty external
store. -/
def sampleState : ServiceState :=
  { store := sampleRepo1, ext := [] }

/-- Sample relation tuple. -/
def sampleTuple : RelationTuple :=
  { namespaceID := "ns1", actionID := "view", roleID := "r1" }

/-- Failure oracle under which every external tuple write fails. -/
def failAll : RelationTuple → Bool := fun _ => true

/-- Failure oracle under which no external tuple write fails. -/
def failNone : RelationTuple → Bool := fun _ => false

/-- Failure oracle failing exactly on one given tuple. -/
def failOn (t : RelationTuple) : RelationTuple → Bool := fun u => u == t

/-- Sample namespace-command environment whose body file fails to parse. -/
def nsEnvParseErr : NamespaceCmdEnv :=
  { parseFile := Except.error "parse failed",
    validateAll := fun _ => none,
    createClient := Except.ok (),
    createNamespaceRpc := fun _ => Except.error "no server",
    updateNamespaceRpc := fun _ _ => Except.error "no server" }

/-- Sample namespace-command environment whose body fails validation. -/
def nsEnvValErr : NamespaceCmdEnv :=
  { parseFile := Except.ok { name := "ns body" },
    validateAll := fun _ => some "validation failed",
    createClient := Except.ok (),
    createNamespaceRpc := fun _ => Except.error "no server",
    updateNamespaceRpc := fun _ _ => Except.error "no server" }

/-- Sample organization-command environment whose body file fails to
parse. -/
def orgEnvParseErr : OrganizationCmdEnv :=
  { parseFile := Except.error "parse failed",
    validateAll := fun _ => none,
    createClient := Except.ok (),
    createOrganizationRpc := fun _ => Except.error "no server",
    updateOrganizationRpc := fun _ _ => Except.error "no server" }

/-- Sample organization-command environment whose body fails validation. -/
def orgEnvValErr : OrganizationCmdEnv :=
  { parseFile := Except.ok { name := "org body", slug := "org-body" },
    validateAll := fun _ => some "validation failed",
    createClient := Except.ok (),
    createOrganizationRpc := fun _ => Except.error "no server",
    updateOrganizationRpc := fun _ _ => Except.error "no server" }

/-- Sample organization returned by the list RPC. -/
def sampleOrg : OrganizationData :=
  { id := "o1", name := "org one", slug := "org-one" }

/-! Helper lemmas. -/

/-- A tripleMatch test succeeds exactly on rows carrying pol's semantic
triple. -/
theorem tripleMatch_eq_true_iff (pol q : Policy) :
    tripleMatch pol q = true ↔ q.triple = pol.triple := by
  simp [tripleMatch, Policy.triple, Prod.ext_iff, and_assoc]

/-- In a list of rows with pairwise-distinct IDs, the first row found by
ID-lookup for a member's ID is that member itself. -/
theorem find?_by_id_of_mem {l : List Policy} {p : Policy}
    (hpw : l.Pairwise (fun a b => a.ID ≠ b.ID)) (hmem : p ∈ l) :
    l.find? (fun x => x.ID == p.ID) = some p := by
  induction l with
  | nil => cases hmem
  | cons a t ih =>
    rcases List.pairwise_cons.mp hpw with ⟨ha, ht⟩
    rcases List.mem_cons.mp hmem with h | h
    · subst h
      simp [List.find?_cons]
    · have hne : a.ID ≠ p.ID := ha p h
      have : (a.ID == p.ID) = false := by
        simpa using hne
      simp [List.find?_cons, this, ih ht h]

/-- Lookup over an appended list skips a left part on which the predicate
is everywhere false. -/
theorem find?_append_of_left_false {l₁ l₂ : List Policy}
    {p : Policy → Bool} (h : ∀ x ∈ l₁, p x = false) :
    (l₁ ++ l₂).find? p = l₂.find? p := by
  induction l₁ with
  | nil => rfl
  | cons a t ih =>
    have ha : p a = false := h a (List.mem_cons_self a t)
    rw [List.cons_append, List.find?_cons, ha]
    exact ih fun x hx => h x (List.mem_cons_of_mem a hx)

/-- A list of rows with pairwise-distinct triples containing one
tripleMatch witness has exactly one row matching that triple. -/
theorem countP_tripleMatch_eq_one {l : List Policy} {pol q : Policy}
    (hpw : l.Pairwise (fun a b => a.triple ≠ b.triple))
    (hmem : q ∈ l) (hq : tripleMatch pol q = true) :
    l.countP (tripleMatch pol) = 1 := by
  induction l with
  | nil => cases hmem
  | cons a t ih =>
    rcases List.pairwise_cons.mp hpw with ⟨ha, ht⟩
    rcases List.mem_cons.mp hmem with h | h
    · subst h
      have hz : t.countP (tripleMatch pol) = 0 := List.countP_eq_zero.mpr (by
        intro x hx hmx
        exact ha x hx (((tripleMatch_eq_true_iff pol q).mp hq).trans
          ((tripleMatch_eq_true_iff pol x).mp hmx).symm))
      rw [List.countP_cons_of_pos _ _ hq, hz]
    · have hane : ¬ (tripleMatch pol a = true) := by
        intro hma
        exact ha q h (((tripleMatch_eq_true_iff pol a).mp hma).trans
          ((tripleMatch_eq_true_iff pol q).mp hq).symm)
      rw [List.countP_cons_of_neg _ _ hane, ih ht h]

/-- Updating a row never changes its ID. -/
theorem updRow_ID (pol : Policy) (now : Nat) (q : Policy) :
    (updRow pol now q).ID = q.ID := by
  unfold updRow
  by_cases h : (q.ID == pol.ID) <;> simp [h]

/-- ID-lookup commutes with the row update map. -/
theorem find?_map_updRow (pol : Policy) (now : Nat) (id : String) (l : List Policy) :
    (l.map (updRow pol now)).find? (fun x => x.ID == id) =
      Option.map (updRow pol now) (l.find? (fun x => x.ID == id)) := by
  induction l with
  | nil => rfl
  | cons a t ih =>
    by_cases h : (a.ID == id) = true
    · simp [List.find?_cons, updRow_ID, h]
    · have h' : (a.ID == id) = false := by simpa using h
      simp [List.find?_cons, updRow_ID, h', ih]

/-- The empty sample store is well-formed. -/
theorem sampleRepo_WF : sampleRepo.WF := by
  simp [Repository.WF, sampleRepo]

/-- The one-row sample store is well-formed. -/
theorem sampleRepo1_WF : sampleRepo1.WF := by
  refine ⟨?_, ?_, ?_, ?_⟩
  · simp [sampleRepo1]
  · simp [sampleRepo1]
  · simp [sampleRepo1, sampleRow]
  · simp [sampleRepo1, sampleRow]
    decide

/-- Claim C1: Create is idempotent on the semantic key: for every well-formed
store and policy input, calling Create twice with the same triple returns
the same ID both times, leaves the store exactly as after the first call
(so the second call creates no new row), and the store after the first
call holds exactly one row carrying that triple. -/
theorem c1_create_idempotent (s : Repository) (pol : Policy) (hwf : s.WF) :
    ((s.Create pol).1.Create pol).2 = (s.Create pol).2 ∧
    ((s.Create pol).1.Create pol).1 = (s.Create pol).1 ∧
    (s.Create pol).1.rows.countP (tripleMatch pol) = 1 := by
  rcases hwf with ⟨hid, htr, hclk, hfresh⟩
  cases hfind : s.rows.find? (tripleMatch pol) with
  | some q =>
    have hq : tripleMatch pol q = true := List.find?_some hfind
    have hmem : q ∈ s.rows := List.mem_of_find?_eq_some hfind
    have h1 : s.Create pol = (s, q.ID) := by
      simp [Repository.Create, hfind]
    refine ⟨?_, ?_, ?_⟩
    · simp [h1]
    · simp [h1]
    · rw [h1]
      exact countP_tripleMatch_eq_one htr hmem hq
  | none =>
    have hall : ∀ x ∈ s.rows, tripleMatch pol x = false := by
      intro x hx
      simpa using List.find?_eq_none.mp hfind x hx
    have h1 : s.Create pol =
        ({ rows := s.rows ++ [newRow s pol], nextID := s.nextID + 1,
           clock := s.clock + 1 }, toString s.nextID) := by
      simp [Repository.Create, hfind]
    have hmatch : tripleMatch pol (newRow s pol) = true := by
      simp [tripleMatch, newRow]
    have hfind2 : (s.rows ++ [newRow s pol]).find? (tripleMatch pol) =
        some (newRow s pol) := by
      rw [find?_append_of_left_false hall]
      simp [List.find?_cons, hmatch]
    have hcount0 : s.rows.countP (tripleMatch pol) = 0 := List.countP_eq_zero.mpr (by
      intro x hx hc
      rw [hall x hx] at hc
      cases hc)
    have h2 : Repository.Create
        { rows := s.rows ++ [newRow s pol], nextID := s.nextID + 1,
          clock := s.clock + 1 } pol =
        ({ rows := s.rows ++ [newRow s pol], nextID := s.nextID + 1,
           clock := s.clock + 1 }, (newRow s pol).ID) := by
      simp only [Repository.Create, hfind2]
    refine ⟨?_, ?_, ?_⟩
    · rw [h1]
      show (Repository.Create
        { rows := s.rows ++ [newRow s pol], nextID := s.nextID + 1,
          clock := s.clock + 1 } pol).2 = toString s.nextID
      rw [h2]
      rfl
    · rw [h1]
      show (Repository.Create
        { rows := s.rows ++ [newRow s pol], nextID := s.nextID + 1,
          clock := s.clock + 1 } pol).1 =
        { rows := s.rows ++ [newRow s pol], nextID := s.nextID + 1,
          clock := s.clock + 1 }
      rw [h2]
    · rw [h1]
      show (s.rows ++ [newRow s pol]).countP (tripleMatch pol) = 1
      rw [List.countP_append, hcount0]
      simp [hmatch]

/-- Witness for C1 at the empty sample store and sample policy. -/
theorem c1_create_idempotent_witness :
    ((sampleRepo.Create samplePolicy).1.Create samplePolicy).2
        = (sampleRepo.Create samplePolicy).2 ∧
    ((sampleRepo.Create samplePolicy).1.Create samplePolicy).1
        = (sampleRepo.Create samplePolicy).1 ∧
    (sampleRepo.Create samplePolicy).1.rows.countP (tripleMatch samplePolicy) = 1 :=
  c1_create_idempotent sampleRepo samplePolicy (by simp [Repository.WF, sampleRepo])

/-- Claim C3: List is filter-correct: for every store state and namespace
identifier n ≠ "", listing with filter NamespaceID = n returns exactly
the stored policies whose NamespaceID equals n, and listing with the
empty filter returns the full set of stored policies. -/
theorem c3_list_filter_correct (st : ServiceState) (n : String) :
    (n ≠ "" → ∀ p : Policy,
      p ∈ Service.List st { NamespaceID := n } ↔
        p ∈ st.store.rows ∧ p.NamespaceID = n) ∧
    Service.List st { NamespaceID := "" } = st.store.rows := by
  constructor
  · intro hn p
    simp [Service.List, Repository.List, hn, List.mem_filter]
  · simp [Service.List, Repository.List]

/-- Witness for C3 at the one-row sample state and namespace "ns1". -/
theorem c3_list_filter_correct_witness :
    ("ns1" ≠ "" ∧
      (sampleRow ∈ Service.List sampleState { NamespaceID := "ns1" } ↔
        sampleRow ∈ sampleState.store.rows ∧ sampleRow.NamespaceID = "ns1")) ∧
    Service.List sampleState { NamespaceID := "" } = sampleState.store.rows := by
  have h := c3_list_filter_correct sampleState "ns1"
  exact ⟨⟨by decide, h.1 (by decide) sampleRow⟩, h.2⟩

/-- Claim C6: operations referencing a missing ID fail with NotFound and change
nothing: if no stored row has the given ID then Get fails with NotFound,
and Update of a policy carrying that ID fails with NotFound and returns
the store unchanged. -/
theorem c6_missing_id_not_found (s : Repository) (id : String) (pol : Policy)
    (h : ∀ q ∈ s.rows, q.ID ≠ id) :
    s.Get id = Except.error PolicyError.NotFound ∧
    (pol.ID = id → s.Update pol = (s, Except.error PolicyError.NotFound)) := by
  have hfind : s.rows.find? (fun p => p.ID == id) = none := by
    apply List.find?_eq_none.mpr
    intro x hx
    simp [h x hx]
  constructor
  · simp [Repository.Get, hfind]
  · intro hid
    have hany : s.rows.any (fun q => q.ID == pol.ID) = false := by
      apply List.any_eq_false.mpr
      intro x hx
      simp [hid, h x hx]
    simp [Repository.Update, hany]

/-- Witness for C6 at the one-row sample store and the absent ID "zz". -/
theorem c6_missing_id_not_found_witness :
    sampleRepo1.Get "zz" = Except.error PolicyError.NotFound ∧
    sampleRepo1.Update sampleMissing = (sampleRepo1, Except.error PolicyError.NotFound) := by
  have h := c6_missing_id_not_found sampleRepo1 "zz" sampleMissing (by
    intro q hq
    simp [sampleRepo1, sampleRow] at hq
    simp [hq])
  exact ⟨h.1, h.2 rfl⟩

/-- Claim C5: Update preserves identity: on a well-formed store holding a row
with the target ID, a successful Update returns that same ID, a
subsequent Get of the ID returns the new (RoleID, NamespaceID, ActionID)
triple with an UpdatedAt strictly later than before the update, and the
list of stored IDs is unchanged (no new identity is created). -/
theorem c5_update_identity (s : Repository) (pol old : Policy) (hwf : s.WF)
    (hget : s.Get pol.ID = Except.ok old) :
    (s.Update pol).2 = Except.ok pol.ID ∧
    (∃ p2, (s.Update pol).1.Get pol.ID = Except.ok p2 ∧
      p2.RoleID = pol.RoleID ∧ p2.NamespaceID = pol.NamespaceID ∧
      p2.ActionID = pol.ActionID ∧ old.UpdatedAt < p2.UpdatedAt) ∧
    (s.Update pol).1.rows.map Policy.ID = s.rows.map Policy.ID := by
  rcases hwf with ⟨hid, htr, hclk, hfresh⟩
  have hfind : s.rows.find? (fun p => p.ID == pol.ID) = some old := by
    unfold Repository.Get at hget
    rcases hf : s.rows.find? (fun p => p.ID == pol.ID) with _ | p
    · rw [hf] at hget
      exact absurd hget (by simp)
    · rw [hf] at hget
      simp only [Except.ok.injEq] at hget
      rw [hf, hget]
  have hmem : old ∈ s.rows := List.mem_of_find?_eq_some hfind
  have hidOld : (old.ID == pol.ID) = true := by
    have := List.find?_some hfind
    simpa using this
  have hany : s.rows.any (fun q => q.ID == pol.ID) = true :=
    List.any_eq_true.mpr ⟨old, hmem, hidOld⟩
  have hupd : s.Update pol =
      ({ rows := s.rows.map (updRow pol (s.clock + 1)), nextID := s.nextID,
         clock := s.clock + 1 }, Except.ok pol.ID) := by
    simp [Repository.Update, hany]
  have hrows2 : (s.Update pol).1.rows = s.rows.map (updRow pol (s.clock + 1)) := by
    rw [hupd]
  refine ⟨by rw [hupd], ?_, ?_⟩
  · refine ⟨updRow pol (s.clock + 1) old, ?_, ?_, ?_, ?_, ?_⟩
    · unfold Repository.Get
      rw [hrows2, find?_map_updRow, hfind]
      rfl
    · simp [updRow, hidOld]
    · simp [updRow, hidOld]
    · simp [updRow, hidOld]
    · have := hclk old hmem
      simp only [updRow, hidOld, if_true]
      omega
  · rw [hrows2, List.map_map]
    simp [Function.comp, updRow_ID]

/-- Witness for C5 at the one-row sample store and the sample update. -/
theorem c5_update_identity_witness :
    (sampleRepo1.Update sampleUpdate).2 = Except.ok sampleUpdate.ID ∧
    (∃ p2, (sampleRepo1.Update sampleUpdate).1.Get sampleUpdate.ID = Except.ok p2 ∧
      p2.RoleID = sampleUpdate.RoleID ∧ p2.NamespaceID = sampleUpdate.NamespaceID ∧
      p2.ActionID = sampleUpdate.ActionID ∧ sampleRow.UpdatedAt < p2.UpdatedAt) ∧
    (sampleRepo1.Update sampleUpdate).1.rows.map Policy.ID =
      sampleRepo1.rows.map Policy.ID :=
  c5_update_identity sampleRepo1 sampleUpdate sampleRow sampleRepo1_WF (by
    simp [Repository.Get, sampleRepo1, sampleRow, sampleUpdate])

/-- Writing a tuple leaves it present in the external store. -/
theorem applyTuple_self_mem (ext : List RelationTuple) (t : RelationTuple) :
    t ∈ applyTuple ext t := by
  unfold applyTuple
  by_cases h : t ∈ ext <;> simp [h]

/-- Writing an already-present tuple is a no-op. -/
theorem applyTuple_of_mem {ext : List RelationTuple} {t : RelationTuple}
    (h : t ∈ ext) : applyTuple ext t = ext := by
  simp [applyTuple, h]

/-- Writing the same tuple twice equals writing it once. -/
theorem applyTuple_idem (ext : List RelationTuple) (t : RelationTuple) :
    applyTuple (applyTuple ext t) t = applyTuple ext t :=
  applyTuple_of_mem (applyTuple_self_mem ext t)

/-- Idempotent tuple writes preserve duplicate-freeness. -/
theorem applyTuple_nodup {ext : List RelationTuple} {t : RelationTuple}
    (h : ext.Nodup) : (applyTuple ext t).Nodup := by
  unfold applyTuple
  by_cases hm : t ∈ ext
  · simp [hm, h]
  · simp [hm, List.nodup_append, h, List.disjoint_singleton]

/-- On a batch with no failing tuple, the adapter folds every tuple into
the external store and reports no failed entries. -/
theorem addTuples_no_fail {fail : RelationTuple → Bool} {ts : List RelationTuple}
    (ext : List RelationTuple) (h : ∀ u ∈ ts, fail u = false) :
    addTuples fail ext ts = (ts.foldl applyTuple ext, []) := by
  induction ts generalizing ext with
  | nil => rfl
  | cons a l ih =>
    have ha : fail a = false := h a (List.mem_cons_self a l)
    simp only [addTuples, ha, Bool.false_eq_true, if_false, List.foldl_cons]
    exact ih (applyTuple ext a) fun u hu => h u (List.mem_cons_of_mem a hu)

/-- On a batch whose first failing tuple is t, the adapter applies
exactly the tuples before t and reports t and the rest unapplied. -/
theorem addTuples_partial {fail : RelationTuple → Bool}
    {ts1 ts2 : List RelationTuple} {t : RelationTuple}
    (ext : List RelationTuple) (h1 : ∀ u ∈ ts1, fail u = false)
    (ht : fail t = true) :
    addTuples fail ext (ts1 ++ t :: ts2) = (ts1.foldl applyTuple ext, t :: ts2) := by
  induction ts1 generalizing ext with
  | nil => simp [addTuples, ht]
  | cons a l ih =>
    have ha : fail a = false := h1 a (List.mem_cons_self a l)
    simp only [List.cons_append, addTuples, ha, Bool.false_eq_true, if_false,
      List.foldl_cons]
    exact ih (applyTuple ext a) fun u hu => h1 u (List.mem_cons_of_mem a hu)

/-- Claim C4: Add is idempotent: for every Policy p and external-store state,
the second Add of the same singleton batch leaves the external tuple set
exactly as after the first, neither call reports a failed entry, and a
duplicate-free store stays duplicate-free (no duplicate tuples). -/
theorem c4_add_idempotent (ext : List RelationTuple) (p : Policy) :
    (AuthzRepository.Add failNone
        (AuthzRepository.Add failNone ext [p]).1 [p]).1 =
      (AuthzRepository.Add failNone ext [p]).1 ∧
    (AuthzRepository.Add failNone ext [p]).2 = [] ∧
    (AuthzRepository.Add failNone
        (AuthzRepository.Add failNone ext [p]).1 [p]).2 = [] ∧
    (ext.Nodup → (AuthzRepository.Add failNone ext [p]).1.Nodup) := by
  have h1 : AuthzRepository.Add failNone ext [p] = (applyTuple ext p.toTuple, []) := by
    simp [AuthzRepository.Add, addTuples, failNone]
  have h2 : AuthzRepository.Add failNone (applyTuple ext p.toTuple) [p] =
      (applyTuple (applyTuple ext p.toTuple) p.toTuple, []) := by
    simp [AuthzRepository.Add, addTuples, failNone]
  refine ⟨?_, ?_, ?_, ?_⟩
  · simp [h1, h2, applyTuple_idem]
  · simp [h1]
  · simp [h1, h2]
  · intro h
    rw [h1]
    exact applyTuple_nodup h

/-- Claim C8: partial-batch failure of Add is applied up to the first failing
tuple and reported: if no tuple of the first segment fails and the
projection of policy p fails, the external store ends holding exactly the
first segment's tuples folded in (no compensating rollback), and Add
reports the entries from p onward as failed so the caller can retry only
those. -/
theorem c8_partial_batch_failure (fail : RelationTuple → Bool)
    (ext : List RelationTuple) (pre post : List Policy) (p : Policy)
    (hpre : ∀ q ∈ pre, fail q.toTuple = false) (hp : fail p.toTuple = true) :
    AuthzRepository.Add fail ext (pre ++ p :: post) =
      ((pre.map Policy.toTuple).foldl applyTuple ext,
        (p :: post).map Policy.toTuple) := by
  unfold AuthzRepository.Add
  rw [List.map_append, List.map_cons]
  refine addTuples_partial ext ?_ hp
  intro u hu
  rcases List.mem_map.mp hu with ⟨q, hq, rfl⟩
  exact hpre q hq

/-- Witness for C4 at the empty external store and the sample policy. -/
theorem c4_add_idempotent_witness :
    (AuthzRepository.Add failNone
        (AuthzRepository.Add failNone [] [samplePolicy]).1 [samplePolicy]).1 =
      (AuthzRepository.Add failNone [] [samplePolicy]).1 ∧
    (AuthzRepository.Add failNone [] [samplePolicy]).2 = [] ∧
    (AuthzRepository.Add failNone
        (AuthzRepository.Add failNone [] [samplePolicy]).1 [samplePolicy]).2 = [] ∧
    (AuthzRepository.Add failNone [] [samplePolicy]).1.Nodup := by
  have h := c4_add_idempotent [] samplePolicy
  exact ⟨h.1, h.2.1, h.2.2.1, h.2.2.2 List.nodup_nil⟩

/-- Witness for C8: a two-policy batch whose second projection fails
leaves the first tuple applied and reports the second entry. -/
theorem c8_partial_batch_failure_witness :
    AuthzRepository.Add (failOn sampleMissing.toTuple) []
        ([samplePolicy] ++ sampleMissing :: []) =
      (([samplePolicy].map Policy.toTuple).foldl applyTuple [],
        (sampleMissing :: []).map Policy.toTuple) :=
  c8_partial_batch_failure (failOn sampleMissing.toTuple) [] [samplePolicy] []
    sampleMissing
    (by
      intro q hq
      simp only [List.mem_singleton] at hq
      subst hq
      decide)
    (by decide)

/-- Get returns the row its ID-lookup finds. -/
theorem Get_eq_of_find? {s : Repository} {id : String} {q : Policy}
    (h : s.rows.find? (fun p => p.ID == id) = some q) :
    s.Get id = Except.ok q := by
  unfold Repository.Get
  rw [h]

/-- Create leaves a row carrying the requested triple reachable under the
returned ID. -/
theorem get_create (s : Repository) (pol : Policy) (hwf : s.WF) :
    ∃ q, (s.Create pol).1.Get (s.Create pol).2 = Except.ok q ∧
      q.RoleID = pol.RoleID ∧ q.NamespaceID = pol.NamespaceID ∧
      q.ActionID = pol.ActionID := by
  rcases hwf with ⟨hid, htr, hclk, hfresh⟩
  cases hfind : s.rows.find? (tripleMatch pol) with
  | some q =>
    have h1 : s.Create pol = (s, q.ID) := by
      simp [Repository.Create, hfind]
    have hq : tripleMatch pol q = true := List.find?_some hfind
    have hmem : q ∈ s.rows := List.mem_of_find?_eq_some hfind
    simp only [tripleMatch, Bool.and_eq_true, beq_iff_eq] at hq
    refine ⟨q, ?_, hq.1.1, hq.1.2, hq.2⟩
    rw [h1]
    exact Get_eq_of_find? (find?_by_id_of_mem hid hmem)
  | none =>
    have h1 : s.Create pol =
        ({ rows := s.rows ++ [newRow s pol], nextID := s.nextID + 1,
           clock := s.clock + 1 }, toString s.nextID) := by
      simp [Repository.Create, hfind]
    have hfind2 : (s.rows ++ [newRow s pol]).find?
        (fun p => p.ID == toString s.nextID) = some (newRow s pol) := by
      rw [find?_append_of_left_false (by intro x hx; simp [hfresh x hx])]
      simp [newRow]
    refine ⟨newRow s pol, ?_, rfl, rfl, rfl⟩
    rw [h1]
    exact Get_eq_of_find? hfind2

/-- Claim C7: validation is a pure precondition check: whenever any of the
role, namespace, action identifiers is empty or not well-formed, both
Service.Create and Service.Update reject the input with a
ValidationError naming an offending field and return the service state
unchanged (no Policy Store write, no external-store write). -/
theorem c7_validation_rejects (fail : RelationTuple → Bool) (st : ServiceState)
    (id role ns act : String)
    (h : (isValidIdentifier role && isValidIdentifier ns && isValidIdentifier act)
      = false) :
    ∃ f, validateTriple role ns act = some f ∧
      ((f = "role_id" ∧ isValidIdentifier role = false) ∨
       (f = "namespace_id" ∧ isValidIdentifier ns = false) ∨
       (f = "action_id" ∧ isValidIdentifier act = false)) ∧
      Service.Create fail st role ns act =
        (st, ServiceResult.err (PolicyError.ValidationError f)) ∧
      Service.Update fail st id role ns act =
        (st, ServiceResult.err (PolicyError.ValidationError f)) := by
  by_cases hr : isValidIdentifier role
  · by_cases hn : isValidIdentifier ns
    · by_cases ha : isValidIdentifier act
      · rw [hr, hn, ha] at h
        cases h
      · have ha' : isValidIdentifier act = false := by simpa using ha
        have hval : validateTriple role ns act = some "action_id" := by
          simp [validateTriple, hr, hn, ha']
        exact ⟨"action_id", hval, Or.inr (Or.inr ⟨rfl, ha'⟩),
          by simp [Service.Create, hval], by simp [Service.Update, hval]⟩
    · have hn' : isValidIdentifier ns = false := by simpa using hn
      have hval : validateTriple role ns act = some "namespace_id" := by
        simp [validateTriple, hr, hn']
      exact ⟨"namespace_id", hval, Or.inr (Or.inl ⟨rfl, hn'⟩),
        by simp [Service.Create, hval], by simp [Service.Update, hval]⟩
  · have hr' : isValidIdentifier role = false := by simpa using hr
    have hval : validateTriple role ns act = some "role_id" := by
      simp [validateTriple, hr']
    exact ⟨"role_id", hval, Or.inl ⟨rfl, hr'⟩,
      by simp [Service.Create, hval], by simp [Service.Update, hval]⟩

/-- Witness for C7 at an empty role identifier. -/
theorem c7_validation_rejects_witness :
    ∃ f, validateTriple "" "ns1" "view" = some f ∧
      ((f = "role_id" ∧ isValidIdentifier "" = false) ∨
       (f = "namespace_id" ∧ isValidIdentifier "ns1" = false) ∨
       (f = "action_id" ∧ isValidIdentifier "view" = false)) ∧
      Service.Create failNone sampleState "" "ns1" "view" =
        (sampleState, ServiceResult.err (PolicyError.ValidationError f)) ∧
      Service.Update failNone sampleState "0" "" "ns1" "view" =
        (sampleState, ServiceResult.err (PolicyError.ValidationError f)) :=
  c7_validation_rejects failNone sampleState "0" "" "ns1" "view" (by decide)

/-- Update of an existing ID succeeds and leaves the new triple reachable
under that ID. -/
theorem get_update (s : Repository) (pol : Policy) (hwf : s.WF)
    (hex : ∃ q ∈ s.rows, q.ID = pol.ID) :
    ∃ p2, (s.Update pol).2 = Except.ok pol.ID ∧
      (s.Update pol).1.Get pol.ID = Except.ok p2 ∧
      p2.RoleID = pol.RoleID ∧ p2.NamespaceID = pol.NamespaceID ∧
      p2.ActionID = pol.ActionID := by
  rcases hwf with ⟨hid, htr, hclk, hfresh⟩
  obtain ⟨q0, hmem, hqid⟩ := hex
  have hfind : s.rows.find? (fun p => p.ID == pol.ID) = some q0 := by
    have := find?_by_id_of_mem hid hmem
    rwa [hqid] at this
  have hidOld : (q0.ID == pol.ID) = true := by simp [hqid]
  have hany : s.rows.any (fun q => q.ID == pol.ID) = true :=
    List.any_eq_true.mpr ⟨q0, hmem, hidOld⟩
  have hupd : s.Update pol =
      ({ rows := s.rows.map (updRow pol (s.clock + 1)), nextID := s.nextID,
         clock := s.clock + 1 }, Except.ok pol.ID) := by
    simp [Repository.Update, hany]
  have hrows2 : (s.Update pol).1.rows = s.rows.map (updRow pol (s.clock + 1)) := by
    rw [hupd]
  refine ⟨updRow pol (s.clock + 1) q0, by rw [hupd], ?_, ?_, ?_, ?_⟩
  · apply Get_eq_of_find?
    rw [hrows2, find?_map_updRow, hfind]
    rfl
  · simp [updRow, hidOld]
  · simp [updRow, hidOld]
  · simp [updRow, hidOld]

/-- Claim C2: on every mutating service call (Create and Update), when the
store write succeeds and the subsequent sync to the external store
fails, the caller receives a SyncError carrying the already-assigned
Policy ID and the Policy Store write is not rolled back: Get of that ID
on the resulting state still returns the persisted Policy with the
requested triple. -/
theorem c2_sync_failure_durable (fail : RelationTuple → Bool) (st : ServiceState)
    (role ns act id : String) (hwf : st.store.WF)
    (hfail : ∀ t, fail t = true)
    (hval : validateTriple role ns act = none)
    (hex : ∃ q ∈ st.store.rows, q.ID = id) :
    (∃ pid p,
      (Service.Create fail st role ns act).2 =
        ServiceResult.err (PolicyError.SyncError pid) ∧
      Service.Get (Service.Create fail st role ns act).1 pid = Except.ok p ∧
      p.RoleID = role ∧ p.NamespaceID = ns ∧ p.ActionID = act) ∧
    (∃ p,
      (Service.Update fail st id role ns act).2 =
        ServiceResult.err (PolicyError.SyncError id) ∧
      Service.Get (Service.Update fail st id role ns act).1 id = Except.ok p ∧
      p.RoleID = role ∧ p.NamespaceID = ns ∧ p.ActionID = act) := by
  constructor
  · obtain ⟨q, hget, hr, hn, ha⟩ := get_create st.store (inputPolicy role ns act) hwf
    have hsync : AuthzRepository.Add fail st.ext [q] = (st.ext, [q.toTuple]) := by
      simp [AuthzRepository.Add, addTuples, hfail]
    refine ⟨(st.store.Create (inputPolicy role ns act)).2, q, ?_, ?_, ?_, ?_, ?_⟩
    · simp [Service.Create, hval, hget, hsync]
    · simp [Service.Create, Service.Get, hval, hget, hsync]
    · simpa [inputPolicy] using hr
    · simpa [inputPolicy] using hn
    · simpa [inputPolicy] using ha
  · have hex' : ∃ q ∈ st.store.rows, q.ID = (updateInput id role ns act).ID := by
      simpa [updateInput] using hex
    obtain ⟨p2, h2a, h2b, hr, hn, ha⟩ :=
      get_update st.store (updateInput id role ns act) hwf hex'
    have hsync : AuthzRepository.Add fail st.ext [p2] = (st.ext, [p2.toTuple]) := by
      simp [AuthzRepository.Add, addTuples, hfail]
    simp only [updateInput] at h2a h2b
    refine ⟨p2, ?_, ?_, ?_, ?_, ?_⟩
    · simp [Service.Update, updateInput, hval, h2a, h2b, hsync]
    · simp [Service.Update, updateInput, Service.Get, hval, h2a, h2b, hsync]
    · simpa [updateInput] using hr
    · simpa [updateInput] using hn
    · simpa [updateInput] using ha

/-- Witness for C2 at the one-row sample state with every external write
failing. -/
theorem c2_sync_failure_durable_witness :
    (∃ pid p,
      (Service.Create failAll sampleState "r2" "ns2" "edit").2 =
        ServiceResult.err (PolicyError.SyncError pid) ∧
      Service.Get (Service.Create failAll sampleState "r2" "ns2" "edit").1 pid =
        Except.ok p ∧
      p.RoleID = "r2" ∧ p.NamespaceID = "ns2" ∧ p.ActionID = "edit") ∧
    (∃ p,
      (Service.Update failAll sampleState "0" "r2" "ns2" "edit").2 =
        ServiceResult.err (PolicyError.SyncError "0") ∧
      Service.Get (Service.Update failAll sampleState "0" "r2" "ns2" "edit").1 "0" =
        Except.ok p ∧
      p.RoleID = "r2" ∧ p.NamespaceID = "ns2" ∧ p.ActionID = "edit") :=
  c2_sync_failure_durable failAll sampleState "r2" "ns2" "edit" "0"
    sampleRepo1_WF (fun _ => rfl) (by decide)
    ⟨sampleRow, by simp [sampleState, sampleRepo1], rfl⟩

/-- Claim C9: in every CLI create/edit command (namespace create, namespace
edit, organization create, organization edit), a body-file parse failure
or a request-body validation failure makes the command return that error
with no client created and no request sent to the server. -/
theorem c9_cli_error_before_client (envN : NamespaceCmdEnv)
    (envO : OrganizationCmdEnv) (nsID orgID : String) :
    (∀ e, envN.parseFile = Except.error e →
      createNamespaceCommand envN =
        (Except.error e, { clientCreated := false, requestSent := false }) ∧
      editNamespaceCommand envN nsID =
        (Except.error e, { clientCreated := false, requestSent := false })) ∧
    (∀ b e, envN.parseFile = Except.ok b → envN.validateAll b = some e →
      createNamespaceCommand envN =
        (Except.error e, { clientCreated := false, requestSent := false }) ∧
      editNamespaceCommand envN nsID =
        (Except.error e, { clientCreated := false, requestSent := false })) ∧
    (∀ e, envO.parseFile = Except.error e →
      createOrganizationCommand envO =
        (Except.error e, { clientCreated := false, requestSent := false }) ∧
      editOrganizationCommand envO orgID =
        (Except.error e, { clientCreated := false, requestSent := false })) ∧
    (∀ b e, envO.parseFile = Except.ok b → envO.validateAll b = some e →
      createOrganizationCommand envO =
        (Except.error e, { clientCreated := false, requestSent := false }) ∧
      editOrganizationCommand envO orgID =
        (Except.error e, { clientCreated := false, requestSent := false })) := by
  refine ⟨?_, ?_, ?_, ?_⟩
  · intro e he
    constructor
    · simp [createNamespaceCommand, he]
    · simp [editNamespaceCommand, he]
  · intro b e hb hv
    constructor
    · simp [createNamespaceCommand, hb, hv]
    · simp [editNamespaceCommand, hb, hv]
  · intro e he
    constructor
    · simp [createOrganizationCommand, he]
    · simp [editOrganizationCommand, he]
  · intro b e hb hv
    constructor
    · simp [createOrganizationCommand, hb, hv]
    · simp [editOrganizationCommand, hb, hv]

/-- Witness for C9 at the sample failing environments. -/
theorem c9_cli_error_before_client_witness :
    createNamespaceCommand nsEnvParseErr =
      (Except.error "parse failed", { clientCreated := false, requestSent := false }) ∧
    editNamespaceCommand nsEnvParseErr "ns1" =
      (Except.error "parse failed", { clientCreated := false, requestSent := false }) ∧
    createNamespaceCommand nsEnvValErr =
      (Except.error "validation failed", { clientCreated := false, requestSent := false }) ∧
    editNamespaceCommand nsEnvValErr "ns1" =
      (Except.error "validation failed", { clientCreated := false, requestSent := false }) ∧
    createOrganizationCommand orgEnvParseErr =
      (Except.error "parse failed", { clientCreated := false, requestSent := false }) ∧
    editOrganizationCommand orgEnvParseErr "o1" =
      (Except.error "parse failed", { clientCreated := false, requestSent := false }) ∧
    createOrganizationCommand orgEnvValErr =
      (Except.error "validation failed", { clientCreated := false, requestSent := false }) ∧
    editOrganizationCommand orgEnvValErr "o1" =
      (Except.error "validation failed", { clientCreated := false, requestSent := false }) := by
  obtain ⟨hA, _, hC, _⟩ :=
    c9_cli_error_before_client nsEnvParseErr orgEnvParseErr "ns1" "o1"
  obtain ⟨_, hB, _, hD⟩ :=
    c9_cli_error_before_client nsEnvValErr orgEnvValErr "ns1" "o1"
  obtain ⟨h1, h2⟩ := hA "parse failed" rfl
  obtain ⟨h3, h4⟩ := hB { name := "ns body" } "validation failed" rfl rfl
  obtain ⟨h5, h6⟩ := hC "parse failed" rfl
  obtain ⟨h7, h8⟩ := hD { name := "org body", slug := "org-body" } "validation failed" rfl rfl
  exact ⟨h1, h2, h3, h4, h5, h6, h7, h8⟩

/-- Claim C10: the organization list command prints "No organizations found."
and returns success with no table when the server returns zero
organizations; on a non-empty result it prints the count line and a
table of one header row plus exactly one row per organization, in the
order returned. -/
theorem c10_list_organizations (orgs : List OrganizationData) :
    (orgs = [] →
      listOrganizationCommand (Except.ok ()) (Except.ok orgs) =
        (Except.ok (), [OutLine.text "No organizations found."]) ∧
      ∀ rows, OutLine.table rows ∉
        (listOrganizationCommand (Except.ok ()) (Except.ok orgs)).2) ∧
    (orgs ≠ [] →
      listOrganizationCommand (Except.ok ()) (Except.ok orgs) =
        (Except.ok (),
         [OutLine.text ("Showing " ++ toString orgs.length ++ " organizations"),
          OutLine.table (["ID", "NAME", "SLUG"] :: orgs.map orgRow)]) ∧
      (["ID", "NAME", "SLUG"] :: orgs.map orgRow).length = orgs.length + 1) := by
  constructor
  · rintro rfl
    constructor
    · rfl
    · intro rows
      simp [listOrganizationCommand]
  · intro hne
    have hlen : (orgs.length == 0) = false := by
      simp [List.length_eq_zero, hne]
    constructor
    · simp [listOrganizationCommand, hlen]
    · simp

/-- Witness for C10 at the empty result and the one-organization result. -/
theorem c10_list_organizations_witness :
    listOrganizationCommand (Except.ok ()) (Except.ok ([] : List OrganizationData)) =
      (Except.ok (), [OutLine.text "No organizations found."]) ∧
    listOrganizationCommand (Except.ok ()) (Except.ok [sampleOrg]) =
      (Except.ok (),
       [OutLine.text ("Showing " ++ toString ([sampleOrg].length) ++ " organizations"),
        OutLine.table (["ID", "NAME", "SLUG"] :: [sampleOrg].map orgRow)]) := by
  have h0 := c10_list_organizations []
  have h1 := c10_list_organizations [sampleOrg]
  exact ⟨(h0.1 rfl).1, (h1.2 (by simp)).1⟩

end Shield
